import Mathlib

/-!
Verification development for the proton.rackndr Ansible collection
(RackN Digital Rebar resource modules: params, profiles, subnets,
tasks, templates).

The five module files under plugins/modules are embedded directly.
The pyrackndr / pyprotonrebar support library (token fetch, the
RackNDr reconciler class, the CONSTANTS payload skeletons) is not part
of this repository; where its behaviour decides a property it is
modelled from the specification and marked as such.
-/

/-- JSON-like values, the data the modules move around: Python
dictionaries are association lists in declaration order (Python 3.7+
dicts preserve insertion order). -/
inductive JVal where
  | jnull
  | jbool (b : Bool)
  | jint (n : Int)
  | jstr (s : String)
  | jarr (xs : List JVal)
  | jobj (kvs : List (String × JVal))
  deriving Repr

open JVal

mutual

/-- Structural equality of JSON values, modelling Python `==` on the
parsed data (objects are insertion-ordered here, see `JVal`). -/
def beqV : JVal → JVal → Bool
  | jnull, jnull => true
  | jbool a, jbool b => a == b
  | jint a, jint b => a == b
  | jstr a, jstr b => a == b
  | jarr a, jarr b => beqL a b
  | jobj a, jobj b => beqKV a b
  | _, _ => false

def beqL : List JVal → List JVal → Bool
  | [], [] => true
  | a :: as, b :: bs => beqV a b && beqL as bs
  | _, _ => false

def beqKV : List (String × JVal) → List (String × JVal) → Bool
  | [], [] => true
  | (ka, va) :: as, (kb, vb) :: bs => ka == kb && beqV va vb && beqKV as bs
  | _, _ => false

end

/-- Python `d[k]` read on a dict: first binding of the key, if any. -/
def alookup (kvs : List (String × JVal)) (k : String) : Option JVal :=
  match kvs with
  | [] => none
  | (k', v) :: rest => if k' = k then some v else alookup rest k

/-- Python `k in d`. -/
def hasKey (kvs : List (String × JVal)) (k : String) : Bool :=
  (alookup kvs k).isSome

/-- Python `d[k] = v`: replace the binding in place if the key exists,
otherwise append it (insertion-ordered dict semantics). -/
def aset (kvs : List (String × JVal)) (k : String) (v : JVal) :
    List (String × JVal) :=
  match kvs with
  | [] => [(k, v)]
  | (k', v') :: rest =>
      if k' = k then (k', v) :: rest else (k', v') :: aset rest k v

/-- Python `d.values()` in declaration order. -/
def avalues (kvs : List (String × JVal)) : List JVal := kvs.map Prod.snd

/-! ## Secret Redactor (rackndr_params.py, run_module lines 189-197) -/

/-- Embedded from rackndr_params.py lines 191-197: with `secure` set,
the module inspects the parsed schema; when the schema's `type` entry
equals `"string"` it adds the schema's `default` entry to the no-log
set, a missing `default` key raising a `KeyError` that the surrounding
handler turns into registering every value of the schema; a missing
`type` key takes the same `KeyError` path.  When `type` is present but
not `"string"` the guard is simply false and nothing is registered. -/
def registerSecureValues (secure : Bool) (schema : List (String × JVal)) :
    List JVal :=
  if secure then
    match alookup schema "type" with
    | some t =>
        if beqV t (jstr "string") then
          match alookup schema "default" with
          | some d => [d]
          | none => avalues schema
        else []
    | none => avalues schema
  else []

/-- The registration rule exactly as the claim words it: a single
string-typed value with a literal default registers that default,
every other schema registers all of its literal values.  Kept separate
from `registerSecureValues` (the code) so the two can be compared. -/
def claimRegisterSecureValues (secure : Bool)
    (schema : List (String × JVal)) : List JVal :=
  if secure then
    match alookup schema "type", alookup schema "default" with
    | some (jstr "string"), some d => [d]
    | _, _ => avalues schema
  else []

/-- Ansible's replacement marker for suppressed values. -/
def noLogMark : String := "VALUE_SPECIFIED_IN_NO_LOG_PARAMETER"

/-- Is the value one of the registered sensitive values? -/
def inRegistered (reg : List JVal) (v : JVal) : Bool :=
  reg.any (fun r => beqV r v)

mutual

/-- Modelled from the spec: the Secret Redactor's content-based
suppression (spec 4.3) — any occurrence of a registered literal in the
emitted data is replaced by the suppression marker; matching is by
value, not by field path.  (The suppression machinery lives in the
Ansible runtime, outside this repository.) -/
def scrubV (reg : List JVal) : JVal → JVal
  | jnull => if inRegistered reg jnull then jstr noLogMark else jnull
  | jbool b => if inRegistered reg (jbool b) then jstr noLogMark else jbool b
  | jint n => if inRegistered reg (jint n) then jstr noLogMark else jint n
  | jstr s => if inRegistered reg (jstr s) then jstr noLogMark else jstr s
  | jarr xs =>
      if inRegistered reg (jarr xs) then jstr noLogMark
      else jarr (scrubL reg xs)
  | jobj kvs =>
      if inRegistered reg (jobj kvs) then jstr noLogMark
      else jobj (scrubKV reg kvs)

def scrubL (reg : List JVal) : List JVal → List JVal
  | [] => []
  | v :: vs => scrubV reg v :: scrubL reg vs

def scrubKV (reg : List JVal) :
    List (String × JVal) → List (String × JVal)
  | [] => []
  | (k, v) :: kvs => (k, scrubV reg v) :: scrubKV reg kvs

end

mutual

/-- Does the value `x` occur anywhere inside the second value
(recursively, arrays and object fields included)? -/
def occursV (x : JVal) : JVal → Bool
  | jnull => beqV x jnull
  | jbool b => beqV x (jbool b)
  | jint n => beqV x (jint n)
  | jstr s => beqV x (jstr s)
  | jarr xs => beqV x (jarr xs) || occursL x xs
  | jobj kvs => beqV x (jobj kvs) || occursKV x kvs

def occursL (x : JVal) : List JVal → Bool
  | [] => false
  | v :: vs => occursV x v || occursL x vs

def occursKV (x : JVal) : List (String × JVal) → Bool
  | [] => false
  | (_, v) :: kvs => occursV x v || occursKV x kvs

end

/-! ## IPv4 networks (Python ipaddress, used by rackndr_subnets.py) -/

/-- Python `str.split('.')` on the character list of the address
text: dots separate fields, empty fields are kept. -/
def splitDots : List Char → List (List Char)
  | [] => [[]]
  | c :: rest =>
      if c = '.' then [] :: splitDots rest
      else
        match splitDots rest with
        | h :: t => (c :: h) :: t
        | [] => [[c]]

/-- Decimal digit value of a character. -/
def digitVal (c : Char) : Option Nat :=
  if c = '0' then some 0 else if c = '1' then some 1
  else if c = '2' then some 2 else if c = '3' then some 3
  else if c = '4' then some 4 else if c = '5' then some 5
  else if c = '6' then some 6 else if c = '7' then some 7
  else if c = '8' then some 8 else if c = '9' then some 9
  else none

def digitsValAux : List Char → Nat → Option Nat
  | [], acc => some acc
  | c :: cs, acc =>
      match digitVal c with
      | some d => digitsValAux cs (acc * 10 + d)
      | none => none

/-- Value of a nonempty all-digit character list. -/
def digitsVal : List Char → Option Nat
  | [] => none
  | cs => digitsValAux cs 0

/-- One dotted-quad component: decimal digits, value at most 255, no
extra leading zeros (Python's ipaddress rejects them). -/
def parseOctet (cs : List Char) : Option Nat :=
  match digitsVal cs with
  | some n =>
      if 1 < cs.length ∧ cs.headD ' ' = '0' then none
      else if n ≤ 255 then some n else none
  | none => none

/-- Dotted-quad IPv4 address as a number below 2^32. -/
def parseIPv4 (s : String) : Option Nat :=
  match splitDots s.data with
  | [a, b, c, d] => do
      let a ← parseOctet a
      let b ← parseOctet b
      let c ← parseOctet c
      let d ← parseOctet d
      pure (((a * 256 + b) * 256 + c) * 256 + d)
  | _ => none

/-- Value of the contiguous netmask with the given number of leading
one bits. -/
def maskValue (p : Nat) : Nat := 2 ^ 32 - 2 ^ (32 - p)

/-- Python's ipaddress accepts a mask that is a contiguous netmask or,
failing that, a contiguous hostmask, and turns it into the number of
network bits. -/
def maskPrefixLen (m : Nat) : Option Nat :=
  match (List.range 33).find? (fun p => maskValue p = m) with
  | some p => some p
  | none => (List.range 33).find? (fun p => 2 ^ (32 - p) - 1 = m)

/-- An IPv4 network: network address plus the number of network bits. -/
structure IPNet where
  netAddr : Nat
  prefixLen : Nat
  deriving DecidableEq, Repr

/-- Python `ipaddress.ip_network(f"{network}/{netmask}")` with the
default strict mode: both parts must parse and the host bits of the
network address must all be zero, otherwise a `ValueError` is raised
(`none` here). -/
def ipNetworkParse (network netmask : String) : Option IPNet :=
  do
    let n ← parseIPv4 network
    let m ← parseIPv4 netmask
    let p ← maskPrefixLen m
    if n % 2 ^ (32 - p) = 0 then pure ⟨n, p⟩ else none

/-- Dotted-quad rendering of an address. -/
def ipToString (n : Nat) : String :=
  toString (n / 2 ^ 24 % 256) ++ "." ++ toString (n / 2 ^ 16 % 256) ++
    "." ++ toString (n / 2 ^ 8 % 256) ++ "." ++ toString (n % 256)

/-- Python `.broadcast_address`: network address with all host bits
set (bitwise or with the hostmask). -/
def broadcastAddr (net : IPNet) : Nat :=
  net.netAddr ||| (2 ^ (32 - net.prefixLen) - 1)

/-- Python `.with_prefixlen`: CIDR string of the network. -/
def withPrefixStr (net : IPNet) : String :=
  ipToString net.netAddr ++ "/" ++ toString net.prefixLen

/-! ## Transport and Reconciler

The pyrackndr / pyprotonrebar `RackNDr` class is not part of this
repository; its reconciliation behaviour is modelled from the spec
(sections 4.2, 4.4 and 6).  The module files only construct it, set
`dryrun` / `tls_verify` / `ignore_keys`, and call `create_or_update`
or `delete` on it. -/

/-- One call on the transport layer, used to record the trace of an
invocation. -/
inductive TCall where
  | authFetch
  | readObj (kind name : String)
  | createObj (kind name : String)
  | updateObj (kind name : String)
  | deleteObj (kind name : String)
  deriving DecidableEq, Repr

/-- Mutating transport calls (create, update or delete write). -/
def isWriteCall : TCall → Bool
  | .createObj _ _ => true
  | .updateObj _ _ => true
  | .deleteObj _ _ => true
  | _ => false

/-- The reconciler object as the modules configure it: check-mode
flag, TLS verification flag, and the two ignore-lists
(`ignore_keys['remote']` / `ignore_keys['local']`). -/
structure RackNDr where
  objtype : String
  dryrun : Bool
  tls_verify : Bool
  ignoreRemote : List String
  ignoreLocal : List String
  deriving Repr

/-- The uniform result envelope (spec section 3): changed flag, API
message, HTTP code, and an optional before/after diff whose sides are
`none` for an absent object. -/
structure ReconcileResult where
  changed : Bool
  message : String
  http_code : Nat
  diff : Option (Option JVal × Option JVal)
  deriving Repr

/-- Remove the ignored field names from an object before comparison
(spec 4.2). -/
def filtObj (kvs : List (String × JVal)) (ignore : List String) :
    List (String × JVal) :=
  kvs.filter (fun kv => !(ignore.contains kv.1))

/-- Modelled from the spec: `RackNDr.create_or_update` (spec 4.2 and
4.4; the class lives in the pyrackndr library, not in this
repository).  Fetch the remote object by name; absent remote means
create, otherwise the ignore-filtered desired and remote objects are
compared — equal means no-op, unequal means update.  Mutations are
skipped under `dryrun`, which still reports the decided `changed` and
diff but uses the nominal success code in place of a transport
response (`wcode`/`wmsg` stand for the write response the transport
would return). -/
def RackNDr.create_or_update (r : RackNDr) (name : String)
    (desired : List (String × JVal))
    (remote : Option (List (String × JVal)))
    (wcode : Nat) (wmsg : String) : ReconcileResult × List TCall :=
  match remote with
  | none =>
      let d : Option JVal × Option JVal :=
        (none, some (jobj (filtObj desired r.ignoreLocal)))
      if r.dryrun then
        (⟨true, "", 201, some d⟩, [.readObj r.objtype name])
      else
        (⟨true, wmsg, wcode, some d⟩,
          [.readObj r.objtype name, .createObj r.objtype name])
  | some rem =>
      let fr := filtObj rem r.ignoreRemote
      let fd := filtObj desired r.ignoreLocal
      if beqKV fr fd then
        (⟨false, "", 200, some (some (jobj fr), some (jobj fr))⟩,
          [.readObj r.objtype name])
      else if r.dryrun then
        (⟨true, "", 200, some (some (jobj fr), some (jobj fd))⟩,
          [.readObj r.objtype name])
      else
        (⟨true, wmsg, wcode, some (some (jobj fr), some (jobj fd))⟩,
          [.readObj r.objtype name, .updateObj r.objtype name])

/-- Modelled from the spec: `RackNDr.delete` (spec 4.2 deletion intent
and 4.4; the class lives in the pyrackndr library, not in this
repository).  Absent remote is a no-op; otherwise delete, skipped
under `dryrun` with the decided `changed` and diff still reported. -/
def RackNDr.delete (r : RackNDr) (name : String)
    (remote : Option (List (String × JVal)))
    (wcode : Nat) (wmsg : String) : ReconcileResult × List TCall :=
  match remote with
  | none =>
      (⟨false, "", 200, some (none, none)⟩, [.readObj r.objtype name])
  | some rem =>
      let fr := filtObj rem r.ignoreRemote
      if r.dryrun then
        (⟨true, "", 200, some (some (jobj fr), none)⟩,
          [.readObj r.objtype name])
      else
        (⟨true, wmsg, wcode, some (some (jobj fr), none)⟩,
          [.readObj r.objtype name, .deleteObj r.objtype name])

/-- The state dispatch every module performs after configuring the
reconciler: `state == 'present'` calls `create_or_update`, anything
else calls `delete` (rackndr_params.py lines 230-233 and the same
lines of the other four modules). -/
def moduleDispatch (r : RackNDr) (state name : String)
    (data : List (String × JVal))
    (remote : Option (List (String × JVal)))
    (wcode : Nat) (wmsg : String) : ReconcileResult × List TCall :=
  if state = "present" then r.create_or_update name data remote wcode wmsg
  else r.delete name remote wcode wmsg

/-! ## The five resource modules -/

/-- The five resource modules of the collection. -/
inductive ModuleKind where
  | params
  | profiles
  | subnets
  | tasks
  | templates
  deriving DecidableEq, Repr

/-- The caller options every module wires into the reconciler. -/
structure ModuleOpts where
  checkMode : Bool
  tlsVerify : Bool
  ignoreRemoteKeys : List String
  ignoreLocalKeys : List String
  deriving Repr

/-- How each module configures the freshly constructed reconciler
object, embedded from the respective `run_module` bodies:
params lines 226-228, profiles lines 225-227, subnets lines 237-238,
tasks lines 259-262, templates lines 210-212.  Every module sets
`dryrun` from the Ansible check mode and `tls_verify` from
`rackn_ep_validate`; params, profiles and templates additionally set
the remote ignore-list from `ignore_remote_keys`; tasks sets both
ignore-lists; subnets sets neither. -/
def moduleConfigure : ModuleKind → ModuleOpts → RackNDr → RackNDr
  | .params, o, r =>
      { r with dryrun := o.checkMode, tls_verify := o.tlsVerify,
               ignoreRemote := o.ignoreRemoteKeys }
  | .profiles, o, r =>
      { r with dryrun := o.checkMode, tls_verify := o.tlsVerify,
               ignoreRemote := o.ignoreRemoteKeys }
  | .subnets, o, r =>
      { r with dryrun := o.checkMode, tls_verify := o.tlsVerify }
  | .tasks, o, r =>
      { r with dryrun := o.checkMode, tls_verify := o.tlsVerify,
               ignoreRemote := o.ignoreRemoteKeys,
               ignoreLocal := o.ignoreLocalKeys }
  | .templates, o, r =>
      { r with dryrun := o.checkMode, tls_verify := o.tlsVerify,
               ignoreRemote := o.ignoreRemoteKeys }

/-- The option names each module declares in `module_args`, copied
from the five `run_module` bodies. -/
def moduleArgKeys : ModuleKind → List String
  | .params =>
      ["state", "name", "description", "documentation", "readonly",
       "secure", "schema", "meta", "ignore_remote_keys", "rackn_role",
       "rackn_userpass", "rackn_user", "rackn_pass", "rackn_ep",
       "rackn_ep_validate"]
  | .profiles =>
      ["state", "name", "description", "documentation", "readonly",
       "meta", "params", "partial", "ignore_remote_keys", "rackn_role",
       "rackn_userpass", "rackn_user", "rackn_pass", "rackn_ep",
       "rackn_ep_validate"]
  | .subnets =>
      ["state", "name", "description", "enabled", "active_start",
       "active_end", "active_lease_time", "reserved_lease_time",
       "netmask", "gateway", "dns_server", "network", "domain_name",
       "rackn_role", "rackn_userpass", "rackn_user", "rackn_pass",
       "rackn_ep", "rackn_ep_validate"]
  | .tasks =>
      ["state", "name", "templates", "description", "documentation",
       "readonly", "ignore_remote_keys", "ignore_local_keys",
       "rackn_role", "rackn_userpass", "rackn_user", "rackn_pass",
       "rackn_ep", "rackn_ep_validate"]
  | .templates =>
      ["state", "name", "contents", "description", "readonly",
       "diff_template_contents", "ignore_remote_keys", "rackn_role",
       "rackn_userpass", "rackn_user", "rackn_pass", "rackn_ep",
       "rackn_ep_validate"]

/-- What the module reports back to Ansible at the end of
`run_module`. -/
structure ModuleExit where
  failed : Bool
  msg : Option String
  changed : Bool
  message : String
  http_code : Nat
  diff : Option (Option JVal × Option JVal)
  deriving Repr

/-- The shared tail of every `run_module`: merge the reconciler result
into the seeded result dict, then
`if result['http_code'] not in [200, 201]: module.fail_json(msg='Uh-oh', **result)`
else `module.exit_json(**result)` (rackndr_params.py lines 235-240;
identical in the other four modules). -/
def finishModule (res : ReconcileResult) : ModuleExit :=
  if !([200, 201].contains res.http_code) then
    ⟨true, some "Uh-oh", res.changed, res.message, res.http_code, res.diff⟩
  else
    ⟨false, none, res.changed, res.message, res.http_code, res.diff⟩

/-! ## Subnets module (rackndr_subnets.py) -/

/-- Modelled from the spec: `pyrackndr.CONSTANTS['subnets']`, the
constant payload skeleton the subnets module copies (the CONSTANTS
table lives in the pyrackndr library, not in this repository).  Per
spec sections 3 and 4.5 it carries an `Options` list skeleton whose
fixed positions 0-4 receive gateway, DNS server, domain name, netmask
and broadcast; the `Value` slots start empty. -/
def subnetsSkeleton : List (String × JVal) :=
  [("Options",
    jarr [jobj [("Value", jstr "")], jobj [("Value", jstr "")],
          jobj [("Value", jstr "")], jobj [("Value", jstr "")],
          jobj [("Value", jstr "")]])]

/-- Python `data['Options'][i]['Value'] = v`. -/
def optSetValue (opts : List JVal) (i : Nat) (v : JVal) : List JVal :=
  match opts[i]? with
  | some (jobj kvs) => opts.set i (jobj (aset kvs "Value" v))
  | _ => opts

/-- Python `data['Options'][i]['Value']`. -/
def optGetValue (kvs : List (String × JVal)) (i : Nat) : Option JVal :=
  match alookup kvs "Options" with
  | some (jarr os) =>
      match os[i]? with
      | some (jobj o) => alookup o "Value"
      | _ => none
  | _ => none

/-- The caller options of the subnets module (module_args of
rackndr_subnets.py lines 133-174, minus the credential plumbing). -/
structure SubnetParams where
  state : String
  name : String
  description : String
  enabled : Bool
  active_start : String
  active_end : String
  active_lease_time : Int
  reserved_lease_time : Int
  netmask : String
  gateway : String
  dns_server : String
  network : String
  domain_name : String
  checkMode : Bool
  tlsVerify : Bool
  deriving Repr

/-- The desired-state payload of the subnets module, embedded from
rackndr_subnets.py lines 201-218: field copies, gateway / DNS server /
domain name / netmask into `Options` positions 0-3, the computed
broadcast address into position 4, and the CIDR string into `Subnet`.
`none` models the `ValueError` Python's `ipaddress.ip_network` raises
on an unparsable network/netmask pair. -/
def buildSubnetData (p : SubnetParams) :
    Option (List (String × JVal)) := do
  let d0 := subnetsSkeleton
  let d1 := aset d0 "ActiveEnd" (jstr p.active_end)
  let d2 := aset d1 "ActiveLeaseTime" (jint p.active_lease_time)
  let d3 := aset d2 "ActiveStart" (jstr p.active_start)
  let d4 := aset d3 "Description" (jstr p.description)
  let d5 := aset d4 "Enabled" (jbool p.enabled)
  let d6 := aset d5 "Name" (jstr p.name)
  let os0 ← match alookup d6 "Options" with
            | some (jarr os) => some os
            | _ => none
  let os1 := optSetValue os0 0 (jstr p.gateway)
  let os2 := optSetValue os1 1 (jstr p.dns_server)
  let os3 := optSetValue os2 2 (jstr p.domain_name)
  let os4 := optSetValue os3 3 (jstr p.netmask)
  let net ← ipNetworkParse p.network p.netmask
  let os5 := optSetValue os4 4 (jstr (ipToString (broadcastAddr net)))
  let d7 := aset d6 "Options" (jarr os5)
  let d8 := aset d7 "ReservedLeaseTime" (jint p.reserved_lease_time)
  let net2 ← ipNetworkParse p.network p.netmask
  pure (aset d8 "Subnet" (jstr (withPrefixStr net2)))

/-- Outcome of a whole module invocation: an unhandled validation
error while the payload is built, or a normal finish. -/
inductive RunOutcome where
  | validationError
  | finished (e : ModuleExit)
  deriving Repr

/-- The subnets `run_module` body after argument parsing, embedded
from rackndr_subnets.py lines 201-250 in source order: build the
payload (lines 201-218, where `ip_network` may raise), only then fetch
the token (lines 225-229, the first transport call), configure the
reconciler (lines 232-238), dispatch on `state` (lines 240-243) and
finish (lines 245-250).  `r0` is the freshly constructed reconciler
object, `remote` the remote object the transport would report, and
`wcode`/`wmsg` the write response it would return. -/
def runSubnetsModule (p : SubnetParams) (r0 : RackNDr)
    (remote : Option (List (String × JVal)))
    (wcode : Nat) (wmsg : String) : RunOutcome × List TCall :=
  match buildSubnetData p with
  | none => (.validationError, [])
  | some data =>
      let r := moduleConfigure .subnets
        ⟨p.checkMode, p.tlsVerify, [], []⟩ r0
      let rc := moduleDispatch r p.state p.name data remote wcode wmsg
      (.finished (finishModule rc.1), TCall.authFetch :: rc.2)

/-! ## Templates module diff presentation (rackndr_templates.py) -/

/-- Python exception kinds relevant to the templates
post-processing. -/
inductive PyError where
  | typeError
  | keyError
  deriving DecidableEq, Repr

/-- The fixed replacement the templates module writes over the
`Contents` field when the caller wants the object diff. -/
def redactedMark : String := "REDACTED BY MODULE FOR EASY DIFF"

/-- The templates module's diff post-processing, embedded from
rackndr_templates.py lines 222-241.  With `diff_template_contents`
set, `diff['before']` is replaced by `diff['before']['Contents']`
inside a `try` that downgrades a `TypeError` (subscripting `None`) to
`None`; `diff['after']` becomes `None` for `state == 'absent'` and
`diff['after']['Contents']` otherwise, outside any handler.  With the
option unset, `'Contents'` is assigned the redaction marker on both
sides, the `before` assignment inside a `try` that swallows a
`TypeError`, the `after` assignment unprotected.  A `KeyError` from a
mapping without `'Contents'` is never caught. -/
def templatesPostProcess (diff_template_contents : Bool)
    (state : String) (diff? : Option (Option JVal × Option JVal)) :
    Except PyError (Option (Option JVal × Option JVal)) :=
  match diff? with
  | none => .ok none
  | some (b, a) =>
    if diff_template_contents then
      match
        (match b with
         | none => Except.ok (none : Option JVal)
         | some (jobj kvs) =>
             match alookup kvs "Contents" with
             | some c => Except.ok (some c)
             | none => Except.error PyError.keyError
         | some _ => Except.ok none) with
      | .error e => .error e
      | .ok b' =>
        if state = "absent" then .ok (some (b', none))
        else
          match a with
          | some (jobj kvs) =>
              match alookup kvs "Contents" with
              | some c => .ok (some (b', some c))
              | none => .error .keyError
          | _ => .error .typeError
    else
      let b' : Option JVal :=
        match b with
        | some (jobj kvs) => some (jobj (aset kvs "Contents" (jstr redactedMark)))
        | _ => b
      match a with
      | some (jobj kvs) =>
          .ok (some (b', some (jobj (aset kvs "Contents" (jstr redactedMark)))))
      | _ => .error .typeError

/-! ## Tasks module template enrichment (rackndr_tasks.py) -/

/-- rackndr_tasks.py lines 134-139: fall-back values for the keys the
API expects when the user does not define them. -/
def TEMPLATE_DEFAULTS : List (String × JVal) :=
  [("Path", jstr ""), ("ID", jstr ""), ("Link", jstr ""),
   ("Meta", jobj [])]

/-- rackndr_tasks.py lines 277-282, `enrich_template`: add each
default key/value pair to the object if the key is not present
already (applied to every caller-supplied template entry at lines
238-240). -/
def enrich_template (lobject : List (String × JVal)) :
    List (String × JVal) :=
  TEMPLATE_DEFAULTS.foldl
    (fun acc kv => if hasKey acc kv.1 then acc else aset acc kv.1 kv.2)
    lobject

theorem alookup_aset (kvs : List (String × JVal)) (k k' : String) (v : JVal) :
    alookup (aset kvs k v) k' = if k' = k then some v else alookup kvs k' := by
  induction kvs with
  | nil =>
      by_cases h : k' = k
      · subst h; simp [aset, alookup]
      · simp [aset, alookup, h, Ne.symm h]
  | cons kv rest ih =>
      obtain ⟨k₀, v₀⟩ := kv
      by_cases h₀ : k₀ = k
      · subst h₀
        by_cases h₁ : k₀ = k'
        · subst h₁; simp [aset, alookup]
        · simp [aset, alookup, h₁, Ne.symm h₁]
      · by_cases h₁ : k₀ = k'
        · subst h₁
          simp [aset, alookup, h₀, Ne.symm h₀]
        · simp [aset, alookup, h₀, h₁, ih]

theorem hasKey_aset (kvs : List (String × JVal)) (k k' : String) (v : JVal) :
    hasKey (aset kvs k v) k' = (decide (k' = k) || hasKey kvs k') := by
  by_cases h : k' = k <;> simp [hasKey, alookup_aset, h]

theorem hasKey_false_iff (kvs : List (String × JVal)) (k : String) :
    hasKey kvs k = false ↔ alookup kvs k = none := by
  cases h : alookup kvs k <;> simp [hasKey, h]

theorem foldl_defaults_lookup (ds : List (String × JVal))
    (t : List (String × JVal)) (k : String) :
    (hasKey t k = true →
       alookup (ds.foldl
         (fun acc kv => if hasKey acc kv.1 then acc else aset acc kv.1 kv.2) t) k
         = alookup t k) ∧
    (hasKey t k = false →
       alookup (ds.foldl
         (fun acc kv => if hasKey acc kv.1 then acc else aset acc kv.1 kv.2) t) k
         = alookup ds k) := by
  induction ds generalizing t with
  | nil =>
      refine ⟨fun _ => rfl, fun h => ?_⟩
      simp [List.foldl, (hasKey_false_iff t k).1 h, alookup]
  | cons d ds ih =>
      obtain ⟨k₀, v₀⟩ := d
      simp only [List.foldl_cons]
      by_cases h₀ : hasKey t k₀ = true
      · simp only [h₀, if_true]
        refine ⟨(ih t).1, fun h => ?_⟩
        have hne : ¬ k₀ = k := by
          intro he; rw [he, h] at h₀; exact Bool.false_ne_true h₀
        rw [(ih t).2 h]
        simp [alookup, hne]
      · have h₀' : hasKey t k₀ = false := by
          cases hh : hasKey t k₀
          · rfl
          · exact absurd hh h₀
        simp only [h₀', Bool.false_eq_true, if_false]
        constructor
        · intro hk
          have h₁ : hasKey (aset t k₀ v₀) k = true := by
            simp [hasKey_aset, hk]
          have hne : ¬ k = k₀ := by
            intro he; rw [← he, hk] at h₀'; exact Bool.noConfusion h₀'
          have h₂ : alookup (aset t k₀ v₀) k = alookup t k := by
            rw [alookup_aset]; simp [hne]
          rw [(ih _).1 h₁, h₂]
        · intro hk
          by_cases hke : k = k₀
          · subst hke
            have h₁ : hasKey (aset t k v₀) k = true := by simp [hasKey_aset]
            rw [(ih _).1 h₁, alookup_aset]
            simp [alookup]
          · have h₁ : hasKey (aset t k₀ v₀) k = false := by
              simp [hasKey_aset, hke, hk]
            rw [(ih _).2 h₁]
            have hne : ¬ k₀ = k := fun he => hke he.symm
            simp [alookup, hne]

theorem inRegistered_of_mem {reg : List JVal} {x v : JVal}
    (hx : x ∈ reg) (hb : beqV x v = true) : inRegistered reg v = true := by
  simp only [inRegistered, List.any_eq_true]
  exact ⟨x, hx, hb⟩

mutual

theorem scrubV_no_occur (reg : List JVal) (s : String) (hs : s ≠ noLogMark)
    (hmem : jstr s ∈ reg) :
    ∀ v : JVal, occursV (jstr s) (scrubV reg v) = false
  | jnull => by
      by_cases h : inRegistered reg jnull = true <;>
        simp [scrubV, h, occursV, beqV, beq_eq_false_iff_ne, hs]
  | jbool b => by
      by_cases h : inRegistered reg (jbool b) = true <;>
        simp [scrubV, h, occursV, beqV, beq_eq_false_iff_ne, hs]
  | jint n => by
      by_cases h : inRegistered reg (jint n) = true <;>
        simp [scrubV, h, occursV, beqV, beq_eq_false_iff_ne, hs]
  | jstr t => by
      by_cases h : inRegistered reg (jstr t) = true
      · simp [scrubV, h, occursV, beqV, beq_eq_false_iff_ne, hs]
      · have hst : ¬ s = t := by
          intro he
          exact h (inRegistered_of_mem hmem (by simp [beqV, he]))
        simp [scrubV, h, occursV, beqV, beq_eq_false_iff_ne, hst]
  | jarr xs => by
      by_cases h : inRegistered reg (jarr xs) = true
      · simp [scrubV, h, occursV, beqV, beq_eq_false_iff_ne, hs]
      · simp [scrubV, h, occursV, beqV,
              scrubL_no_occur reg s hs hmem xs]
  | jobj kvs => by
      by_cases h : inRegistered reg (jobj kvs) = true
      · simp [scrubV, h, occursV, beqV, beq_eq_false_iff_ne, hs]
      · simp [scrubV, h, occursV, beqV,
              scrubKV_no_occur reg s hs hmem kvs]

theorem scrubL_no_occur (reg : List JVal) (s : String) (hs : s ≠ noLogMark)
    (hmem : jstr s ∈ reg) :
    ∀ xs : List JVal, occursL (jstr s) (scrubL reg xs) = false
  | [] => rfl
  | v :: vs => by
      simp [scrubL, occursL, scrubV_no_occur reg s hs hmem v,
            scrubL_no_occur reg s hs hmem vs]

theorem scrubKV_no_occur (reg : List JVal) (s : String) (hs : s ≠ noLogMark)
    (hmem : jstr s ∈ reg) :
    ∀ kvs : List (String × JVal), occursKV (jstr s) (scrubKV reg kvs) = false
  | [] => rfl
  | (k, v) :: kvs => by
      simp [scrubKV, occursKV, scrubV_no_occur reg s hs hmem v,
            scrubKV_no_occur reg s hs hmem kvs]

end

theorem ipNetworkParse_mod {network netmask : String} {net : IPNet}
    (h : ipNetworkParse network netmask = some net) :
    net.netAddr % 2 ^ (32 - net.prefixLen) = 0 := by
  unfold ipNetworkParse at h
  cases hn : parseIPv4 network with
  | none => rw [hn] at h; simp at h
  | some n =>
    rw [hn] at h
    simp only [Option.bind_eq_bind, Option.some_bind] at h
    cases hm : parseIPv4 netmask with
    | none => rw [hm] at h; simp at h
    | some m =>
      rw [hm] at h
      simp only [Option.some_bind] at h
      cases hp : maskPrefixLen m with
      | none => rw [hp] at h; simp at h
      | some p =>
        rw [hp] at h
        simp only [Option.some_bind] at h
        split at h
        · rename_i hz
          cases h
          exact hz
        · exact Option.noConfusion h

theorem broadcastAddr_eq_add {net : IPNet}
    (h : net.netAddr % 2 ^ (32 - net.prefixLen) = 0) :
    broadcastAddr net = net.netAddr + (2 ^ (32 - net.prefixLen) - 1) := by
  obtain ⟨q, hq⟩ := Nat.dvd_of_mod_eq_zero h
  have blt : 2 ^ (32 - net.prefixLen) - 1 < 2 ^ (32 - net.prefixLen) :=
    Nat.sub_lt (Nat.two_pow_pos _) Nat.one_pos
  rw [broadcastAddr, hq, ← Nat.mul_add_lt_is_or blt q]

theorem dispatch_dryrun_skips (r : RackNDr) (state name : String)
    (data : List (String × JVal))
    (remote : Option (List (String × JVal)))
    (wcode : Nat) (wmsg : String) (hd : r.dryrun = true) :
    ((moduleDispatch r state name data remote wcode wmsg).2.filter isWriteCall = []) ∧
    (moduleDispatch r state name data remote wcode wmsg).1.changed =
      (moduleDispatch { r with dryrun := false }
        state name data remote wcode wmsg).1.changed ∧
    (moduleDispatch r state name data remote wcode wmsg).1.diff =
      (moduleDispatch { r with dryrun := false }
        state name data remote wcode wmsg).1.diff := by
  unfold moduleDispatch RackNDr.create_or_update RackNDr.delete
  by_cases hs : state = "present" <;> cases remote <;>
    simp [hs, hd, isWriteCall, List.filter]
  · rename_i rem
    by_cases he : beqKV (filtObj rem r.ignoreRemote) (filtObj data r.ignoreLocal) = true <;>
      simp [he, isWriteCall, List.filter]

/-- C1: with check mode enabled (the modules set the reconciler's
`dryrun` from Ansible's check mode before dispatching), no mutating
transport call (create, update or delete write) appears in the
transport trace of any of the five modules' reconciliation dispatch,
while the returned `changed` flag and diff are the same as those of
the identical invocation with check mode disabled. -/
theorem check_mode_no_mutation (k : ModuleKind) (o : ModuleOpts)
    (r0 : RackNDr) (state name : String) (data : List (String × JVal))
    (remote : Option (List (String × JVal)))
    (wcode : Nat) (wmsg : String) (h : o.checkMode = true) :
    ((moduleDispatch (moduleConfigure k o r0)
        state name data remote wcode wmsg).2.filter isWriteCall = []) ∧
    (moduleDispatch (moduleConfigure k o r0)
        state name data remote wcode wmsg).1.changed =
      (moduleDispatch (moduleConfigure k { o with checkMode := false } r0)
        state name data remote wcode wmsg).1.changed ∧
    (moduleDispatch (moduleConfigure k o r0)
        state name data remote wcode wmsg).1.diff =
      (moduleDispatch (moduleConfigure k { o with checkMode := false } r0)
        state name data remote wcode wmsg).1.diff := by
  have e : moduleConfigure k { o with checkMode := false } r0 =
      { moduleConfigure k o r0 with dryrun := false } := by
    cases k <;> rfl
  rw [e]
  exact dispatch_dryrun_skips _ state name data remote wcode wmsg
    (by cases k <;> simp [moduleConfigure, h])

theorem check_mode_no_mutation_witness :
    (⟨true, true, ["CreatedAt"], []⟩ : ModuleOpts).checkMode = true ∧
    ((moduleDispatch
        (moduleConfigure ModuleKind.params ⟨true, true, ["CreatedAt"], []⟩
          ⟨"params", false, true, [], []⟩)
        "present" "p0" [("Name", jstr "p0")] none 201 "created").2.filter
      isWriteCall = []) := by
  have h := check_mode_no_mutation ModuleKind.params
    ⟨true, true, ["CreatedAt"], []⟩ ⟨"params", false, true, [], []⟩
    "present" "p0" [("Name", jstr "p0")] none 201 "created" rfl
  exact ⟨rfl, h.1⟩

/-- C2: `run_module` reports failure exactly when the reconciliation
result's `http_code` is neither 200 nor 201; on failure the generic
message `'Uh-oh'` is attached and every envelope field (changed,
message, http_code, diff) is carried along; otherwise the module exits
successfully with the envelope and no failure message. -/
theorem http_code_failure_contract (res : ReconcileResult) :
    ((finishModule res).failed = true ↔
       ¬(res.http_code = 200 ∨ res.http_code = 201)) ∧
    (finishModule res).changed = res.changed ∧
    (finishModule res).message = res.message ∧
    (finishModule res).http_code = res.http_code ∧
    (finishModule res).diff = res.diff ∧
    ((finishModule res).failed = true → (finishModule res).msg = some "Uh-oh") ∧
    ((finishModule res).failed = false → (finishModule res).msg = none) := by
  unfold finishModule
  by_cases h : res.http_code = 200 ∨ res.http_code = 201 <;>
    rcases res with ⟨c, m, code, d⟩ <;>
    simp_all [List.contains]

/-- C3: counterexample.  The claim's "otherwise, every literal value
appearing in the schema's declared value set is registered" is false
on the code: a secure param whose schema has a `type` entry other than
`"string"` (here `{"type": "integer", "default": "s3cr3t"}`) registers
nothing at all — the `type == 'string'` guard is false and no
`KeyError` fires — so the value `s3cr3t`, which the claim requires to
be registered and suppressed, survives the redaction unchanged. -/
theorem secure_registration_counterexample :
    registerSecureValues true
      [("type", jstr "integer"), ("default", jstr "s3cr3t")] = [] ∧
    claimRegisterSecureValues true
      [("type", jstr "integer"), ("default", jstr "s3cr3t")] =
      [jstr "integer", jstr "s3cr3t"] ∧
    occursV (jstr "s3cr3t")
      (scrubV (registerSecureValues true
          [("type", jstr "integer"), ("default", jstr "s3cr3t")])
        (jstr "s3cr3t")) = true :=
  ⟨rfl, rfl, rfl⟩

/-- C3 (amended): with `secure = true`, the params module registers
for suppression: the schema's literal `default` value when the
schema's `type` entry is `"string"` and a `default` entry exists;
every literal value of the schema when `type` is `"string"` but no
`default` entry exists, or when no `type` entry exists; and nothing at
all when a `type` entry exists that is not `"string"`.  With
`secure = false` nothing is registered.  A registered string-typed
default (other than the suppression marker itself) never occurs in any
scrubbed output value. -/
theorem secure_registration_amended (schema : List (String × JVal))
    (s : String) (hs : s ≠ noLogMark) :
    (alookup schema "type" = some (jstr "string") →
       alookup schema "default" = some (jstr s) →
       registerSecureValues true schema = [jstr s] ∧
       ∀ v : JVal,
         occursV (jstr s) (scrubV (registerSecureValues true schema) v)
           = false) ∧
    (alookup schema "type" = some (jstr "string") →
       alookup schema "default" = none →
       registerSecureValues true schema = avalues schema) ∧
    (alookup schema "type" = none →
       registerSecureValues true schema = avalues schema) ∧
    (∀ t, alookup schema "type" = some t → beqV t (jstr "string") = false →
       registerSecureValues true schema = []) ∧
    registerSecureValues false schema = [] := by
  refine ⟨fun ht hd => ?_, fun ht hd => ?_, fun ht => ?_,
          fun t ht hnt => ?_, rfl⟩
  · have hr : registerSecureValues true schema = [jstr s] := by
      simp [registerSecureValues, ht, hd, beqV]
    refine ⟨hr, fun v => ?_⟩
    rw [hr]
    exact scrubV_no_occur [jstr s] s hs (List.mem_singleton.mpr rfl) v
  · simp [registerSecureValues, ht, hd, beqV]
  · simp [registerSecureValues, ht]
  · simp [registerSecureValues, ht, hnt]

theorem secure_registration_amended_witness :
    "s3cr3t" ≠ noLogMark ∧
    registerSecureValues true
      [("type", jstr "string"), ("default", jstr "s3cr3t")] =
      [jstr "s3cr3t"] ∧
    occursV (jstr "s3cr3t")
      (scrubV (registerSecureValues true
          [("type", jstr "string"), ("default", jstr "s3cr3t")])
        (jobj [("before", jobj [("Secure", jbool true)]),
               ("after", jstr "s3cr3t"),
               ("message", jarr [jstr "s3cr3t", jstr "ok"])])) = false := by
  have h := (secure_registration_amended
    [("type", jstr "string"), ("default", jstr "s3cr3t")]
    "s3cr3t" (by decide)).1 rfl rfl
  exact ⟨by decide, h.1, h.2 _⟩

/-- C4: for a well-formed network/netmask pair (one Python's
`ip_network` accepts), the desired payload built by the subnets module
carries in `Subnet` the CIDR string of the network, in
`Options[4].Value` the network's broadcast address — its last address,
the network address plus the host span — and the caller's gateway,
DNS server, domain name and netmask in `Options` positions 0-3. -/
theorem subnet_payload_derivation (p : SubnetParams) (net : IPNet)
    (h : ipNetworkParse p.network p.netmask = some net) :
    ∃ kvs, buildSubnetData p = some kvs ∧
      alookup kvs "Subnet" =
        some (jstr (ipToString net.netAddr ++ "/" ++ toString net.prefixLen)) ∧
      optGetValue kvs 4 =
        some (jstr (ipToString (net.netAddr + (2 ^ (32 - net.prefixLen) - 1)))) ∧
      optGetValue kvs 0 = some (jstr p.gateway) ∧
      optGetValue kvs 1 = some (jstr p.dns_server) ∧
      optGetValue kvs 2 = some (jstr p.domain_name) ∧
      optGetValue kvs 3 = some (jstr p.netmask) := by
  have hb : broadcastAddr net = net.netAddr + (2 ^ (32 - net.prefixLen) - 1) :=
    broadcastAddr_eq_add (ipNetworkParse_mod h)
  unfold buildSubnetData
  rw [h]
  simp only [Option.bind_eq_bind, Option.some_bind]
  rw [hb]
  exact ⟨_, rfl, rfl, rfl, rfl, rfl, rfl, rfl⟩

theorem subnet_payload_derivation_witness :
    ipNetworkParse "10.0.0.0" "255.255.255.0" = some ⟨167772160, 24⟩ ∧
    ∃ kvs,
      buildSubnetData
        ⟨"present", "s0", "", true, "10.0.0.10", "10.0.0.25", 8600, 21600,
         "255.255.255.0", "10.0.0.1", "10.0.0.200", "10.0.0.0",
         "lan", false, true⟩ = some kvs ∧
      alookup kvs "Subnet" = some (jstr "10.0.0.0/24") ∧
      optGetValue kvs 4 = some (jstr "10.0.0.255") := by
  obtain ⟨kvs, h1, h2, h3, _⟩ := subnet_payload_derivation
    ⟨"present", "s0", "", true, "10.0.0.10", "10.0.0.25", 8600, 21600,
     "255.255.255.0", "10.0.0.1", "10.0.0.200", "10.0.0.0",
     "lan", false, true⟩ ⟨167772160, 24⟩ (by decide)
  exact ⟨by decide, kvs, h1, h2, h3⟩

/-- C5: a network/netmask pair that cannot be parsed as an IP network
makes the subnets module fail while the desired payload is being
built: the run ends in the validation error and the transport trace is
empty — no token fetch, no read, no write. -/
theorem subnet_validation_fails_fast (p : SubnetParams) (r0 : RackNDr)
    (remote : Option (List (String × JVal))) (wcode : Nat) (wmsg : String)
    (h : ipNetworkParse p.network p.netmask = none) :
    buildSubnetData p = none ∧
    runSubnetsModule p r0 remote wcode wmsg =
      (RunOutcome.validationError, []) := by
  have hb : buildSubnetData p = none := by
    unfold buildSubnetData
    rw [h]
    rfl
  exact ⟨hb, by simp [runSubnetsModule, hb]⟩

theorem subnet_validation_fails_fast_witness :
    ipNetworkParse "10.0.0.1" "255.255.255.0" = none ∧
    runSubnetsModule
      ⟨"present", "s1", "", true, "10.0.0.10", "10.0.0.25", 8600, 21600,
       "255.255.255.0", "10.0.0.254", "10.0.0.200", "10.0.0.1",
       "lan", false, true⟩
      ⟨"subnets", false, true, [], []⟩ none 201 "created" =
      (RunOutcome.validationError, []) := by
  have h := subnet_validation_fails_fast
    ⟨"present", "s1", "", true, "10.0.0.10", "10.0.0.25", 8600, 21600,
     "255.255.255.0", "10.0.0.254", "10.0.0.200", "10.0.0.1",
     "lan", false, true⟩
    ⟨"subnets", false, true, [], []⟩ none 201 "created" (by decide)
  exact ⟨by decide, h.2⟩

/-- C10: with `state = absent` the subnets module still builds and
validates the full desired-state payload before dispatching the
delete: a malformed network/netmask ends the run in the validation
error with an empty transport trace; a well-formed one yields a built
payload; and the dispatched delete never depends on the payload — the
dispatch result is the same for any two payloads. -/
theorem absent_payload_validation (p : SubnetParams) (r0 : RackNDr)
    (remote : Option (List (String × JVal))) (wcode : Nat) (wmsg : String)
    (hstate : p.state = "absent") :
    (ipNetworkParse p.network p.netmask = none →
       runSubnetsModule p r0 remote wcode wmsg =
         (RunOutcome.validationError, [])) ∧
    (∀ net, ipNetworkParse p.network p.netmask = some net →
       ∃ kvs, buildSubnetData p = some kvs) ∧
    (∀ data data' : List (String × JVal), ∀ r : RackNDr,
       moduleDispatch r p.state p.name data remote wcode wmsg =
         moduleDispatch r p.state p.name data' remote wcode wmsg) := by
  refine ⟨fun h => ?_, fun net h => ?_, fun data data' r => ?_⟩
  · have hb : buildSubnetData p = none := by
      unfold buildSubnetData
      rw [h]
      rfl
    simp [runSubnetsModule, hb]
  · unfold buildSubnetData
    rw [h]
    simp only [Option.bind_eq_bind, Option.some_bind]
    exact ⟨_, rfl⟩
  · rw [hstate]
    simp [moduleDispatch]

theorem absent_payload_validation_witness :
    (⟨"absent", "s2", "", true, "10.0.0.10", "10.0.0.25", 8600, 21600,
      "255.255.255.0", "10.0.0.254", "10.0.0.200", "10.0.0.7",
      "lan", false, true⟩ : SubnetParams).state = "absent" ∧
    ipNetworkParse "10.0.0.7" "255.255.255.0" = none ∧
    runSubnetsModule
      ⟨"absent", "s2", "", true, "10.0.0.10", "10.0.0.25", 8600, 21600,
       "255.255.255.0", "10.0.0.254", "10.0.0.200", "10.0.0.7",
       "lan", false, true⟩
      ⟨"subnets", false, true, [], []⟩ none 200 "deleted" =
      (RunOutcome.validationError, []) := by
  have h := absent_payload_validation
    ⟨"absent", "s2", "", true, "10.0.0.10", "10.0.0.25", 8600, 21600,
     "255.255.255.0", "10.0.0.254", "10.0.0.200", "10.0.0.7",
     "lan", false, true⟩
    ⟨"subnets", false, true, [], []⟩ none 200 "deleted" rfl
  exact ⟨rfl, by decide, h.1 (by decide)⟩

/-- C6: with `diff_template_contents` enabled and a diff present, the
templates module narrows `diff.before` to the prior object's
`Contents` value — `none` when the object did not previously exist —
and `diff.after` to the desired `Contents` value, `none` when the
intent is deletion (`state = 'absent'`). -/
theorem template_contents_diff_narrowing (state : String)
    (bkvs akvs : List (String × JVal)) (c ca : JVal)
    (hc : alookup bkvs "Contents" = some c)
    (hca : alookup akvs "Contents" = some ca) :
    templatesPostProcess true "absent" (some (some (jobj bkvs), none)) =
      .ok (some (some c, none)) ∧
    (state ≠ "absent" →
       templatesPostProcess true state
         (some (some (jobj bkvs), some (jobj akvs))) =
         .ok (some (some c, some ca))) ∧
    (state ≠ "absent" →
       templatesPostProcess true state (some (none, some (jobj akvs))) =
         .ok (some (none, some ca))) := by
  refine ⟨?_, fun hst => ?_, fun hst => ?_⟩
  · simp [templatesPostProcess, hc]
  · simp [templatesPostProcess, hc, hca, hst]
  · simp [templatesPostProcess, hca, hst]

theorem template_contents_diff_narrowing_witness :
    alookup [("Contents", jstr "abc")] "Contents" = some (jstr "abc") ∧
    templatesPostProcess true "absent"
      (some (some (jobj [("Contents", jstr "abc")]), none)) =
      .ok (some (some (jstr "abc"), none)) := by
  have h := template_contents_diff_narrowing "present"
    [("Contents", jstr "abc")] [("Contents", jstr "x")]
    (jstr "abc") (jstr "x") rfl rfl
  exact ⟨rfl, h.1⟩

/-- C7: counterexample.  The post-processing with the option disabled
does raise: deleting a template (so `diff.after` is null) reaches the
unprotected `rebar_result['diff']['after']['Contents'] = ...`
assignment outside any handler, a `TypeError` on `None` — here for a
prior object with contents `"abc"` — so the claimed "this
post-processing never raises an error" is false on the code. -/
theorem template_redaction_counterexample :
    templatesPostProcess false "absent"
      (some (some (jobj [("Contents", jstr "abc")]), none)) =
      .error PyError.typeError := rfl

/-- C7 (amended): with the show-contents-diff option disabled and a
diff present, the `Contents` field is replaced by the fixed marker in
`diff.before` and `diff.after` whenever `diff.after` is a mapping; a
missing prior object (`before` null) degrades gracefully rather than
erroring; but a null `diff.after` (deletion intent) raises a
`TypeError`. -/
theorem template_redaction_amended (state : String)
    (bkvs akvs : List (String × JVal)) (b : Option JVal) :
    (templatesPostProcess false state (some (none, some (jobj akvs))) =
       .ok (some (none,
         some (jobj (aset akvs "Contents" (jstr redactedMark)))))) ∧
    (templatesPostProcess false state
       (some (some (jobj bkvs), some (jobj akvs))) =
       .ok (some (some (jobj (aset bkvs "Contents" (jstr redactedMark))),
         some (jobj (aset akvs "Contents" (jstr redactedMark)))))) ∧
    (templatesPostProcess false state (some (b, none)) =
       .error PyError.typeError) :=
  ⟨rfl, rfl, rfl⟩

/-- C8: the tasks module's template enrichment fills each of `Path`,
`ID`, `Link`, `Meta` that the caller omitted with its default (empty
string, empty object for `Meta`), keeps every caller-supplied field at
its caller-given value, and adds or changes nothing else: for every
key, a lookup after enrichment equals the caller's binding when one
existed, and the defaults-table binding (in particular `none` for keys
outside the table) otherwise. -/
theorem task_template_defaults (t : List (String × JVal)) (k : String) :
    (hasKey t k = true →
       alookup (enrich_template t) k = alookup t k) ∧
    (hasKey t k = false →
       alookup (enrich_template t) k = alookup TEMPLATE_DEFAULTS k) :=
  foldl_defaults_lookup TEMPLATE_DEFAULTS t k

theorem task_template_defaults_witness :
    hasKey [("Name", jstr "n"), ("Contents", jstr "c"), ("Path", jstr "/x")]
      "Meta" = false ∧
    alookup (enrich_template
      [("Name", jstr "n"), ("Contents", jstr "c"), ("Path", jstr "/x")])
      "Meta" = some (jobj []) ∧
    hasKey [("Name", jstr "n"), ("Contents", jstr "c"), ("Path", jstr "/x")]
      "Path" = true ∧
    alookup (enrich_template
      [("Name", jstr "n"), ("Contents", jstr "c"), ("Path", jstr "/x")])
      "Path" = some (jstr "/x") := by
  have h1 := (task_template_defaults
    [("Name", jstr "n"), ("Contents", jstr "c"), ("Path", jstr "/x")]
    "Meta").2 rfl
  have h2 := (task_template_defaults
    [("Name", jstr "n"), ("Contents", jstr "c"), ("Path", jstr "/x")]
    "Path").1 rfl
  exact ⟨rfl, h1.trans rfl, rfl, h2.trans rfl⟩

/-- C9: the subnets module never configures the reconciler's
ignore-lists from caller input — it declares no `ignore_remote_keys`
or `ignore_local_keys` option and leaves both ignore-lists of the
reconciler object exactly as constructed (the library default) —
while each of the other four modules declares `ignore_remote_keys`
and sets the remote ignore-list from it. -/
theorem subnets_ignore_keys_untouched (o : ModuleOpts) (r : RackNDr) :
    (moduleConfigure ModuleKind.subnets o r).ignoreRemote = r.ignoreRemote ∧
    (moduleConfigure ModuleKind.subnets o r).ignoreLocal = r.ignoreLocal ∧
    ("ignore_remote_keys" ∉ moduleArgKeys ModuleKind.subnets ∧
     "ignore_local_keys" ∉ moduleArgKeys ModuleKind.subnets) ∧
    (∀ k : ModuleKind, k ≠ ModuleKind.subnets →
       "ignore_remote_keys" ∈ moduleArgKeys k ∧
       (moduleConfigure k o r).ignoreRemote = o.ignoreRemoteKeys) := by
  refine ⟨rfl, rfl, ⟨by decide, by decide⟩, fun k hk => ?_⟩
  cases k with
  | subnets => exact absurd rfl hk
  | params => exact ⟨by decide, rfl⟩
  | profiles => exact ⟨by decide, rfl⟩
  | tasks => exact ⟨by decide, rfl⟩
  | templates => exact ⟨by decide, rfl⟩

theorem subnets_ignore_keys_untouched_witness :
    ModuleKind.params ≠ ModuleKind.subnets ∧
    "ignore_remote_keys" ∈ moduleArgKeys ModuleKind.params ∧
    (moduleConfigure ModuleKind.params ⟨true, true, ["CreatedBy"], []⟩
      ⟨"params", false, true, [], []⟩).ignoreRemote = ["CreatedBy"] := by
  have h := (subnets_ignore_keys_untouched ⟨true, true, ["CreatedBy"], []⟩
    ⟨"params", false, true, [], []⟩).2.2.2 ModuleKind.params (by decide)
  exact ⟨by decide, h.1, h.2⟩

theorem http_code_failure_contract_witness :
    (finishModule ⟨false, "conflict", 409, none⟩).failed = true ∧
    (finishModule ⟨false, "conflict", 409, none⟩).msg = some "Uh-oh" ∧
    (finishModule ⟨false, "conflict", 409, none⟩).http_code = 409 := by
  have h := http_code_failure_contract ⟨false, "conflict", 409, none⟩
  have hf : (finishModule ⟨false, "conflict", 409, none⟩).failed = true :=
    (h.1).mpr (by decide)
  exact ⟨hf, h.2.2.2.2.2.1 hf, h.2.2.2.1⟩
